import Mathlib

/-!
Shallow embedding of the AI Document Assistant repository
(`app/models/rag_model.py`, `app/models/chat_model.py`,
`app/utils/document_processor.py`, `app/utils/vector_store.py`,
`app/main.py`).

External collaborators (the PDF loader, the text splitter, the FAISS
vector store, the Groq chat-completion endpoint, `json.loads`) are
modelled as oracles gathered in an `Env` record; each method of the
repository is translated into a pure Lean function over an explicit
state, returning alongside its result the list of external calls it
performed (the trace), so that "a retrieval was performed", "the LLM
was called", "no retry happened" are statements about the trace.
Python exceptions are modelled with `Except String`; a `try/except`
block in the source becomes a `match` on the `Except` value.
-/

namespace DocAssistant

/-- A langchain `Document`: a chunk of text (`page_content`). -/
structure Doc where
  page_content : String
deriving Repr, DecidableEq

/-- A chat message dictionary `{"role": r, "content": c}`. -/
structure Msg where
  role : String
  content : String
deriving Repr, DecidableEq

/-- Models `message` field of a Groq chat-completion choice. -/
structure LLMMessage where
  content : String
deriving Repr, DecidableEq

/-- One element of `response.choices`. -/
structure LLMChoice where
  message : LLMMessage
deriving Repr, DecidableEq

/-- A Groq chat-completion response: `response.choices` is a list. -/
structure LLMResponse where
  choices : List LLMChoice
deriving Repr, DecidableEq

/-- One call into an external library, recorded in execution order. -/
inductive Event where
  /-- Models `PyPDFLoader(file_path).load()` was invoked. -/
  | loadPdf (path : String)
  /-- Models `text_splitter.split_documents(pages)` was invoked. -/
  | split (pages : List Doc)
  /-- Models `FAISS.from_documents(valid_docs, embedding)` was invoked. -/
  | createStore (docs : List Doc)
  /-- Models `vector_store.similarity_search(query, k)` was invoked. -/
  | search (query : String) (k : Nat)
  /-- Models `groq_client.chat.completions.create(messages=...)` was invoked. -/
  | llmCall (messages : List Msg)
deriving Repr, DecidableEq

/-- The external libraries, as oracles.  An `Except.error e` models the
library call raising an exception whose `str` is `e`.  Quantifying a
statement over every `Env` quantifies over every behaviour of the
external collaborators, including always-failing ones. -/
structure Env where
  /-- Models `os.path.exists`. -/
  fileExists : String → Bool
  /-- Models `PyPDFLoader(path).load()`: the pages of the PDF. -/
  loadPages : String → Except String (List Doc)
  /-- Models `RecursiveCharacterTextSplitter.split_documents`. -/
  splitDocuments : List Doc → List Doc
  /-- Models `FAISS.from_documents` (embedding computation + indexing). -/
  fromDocuments : List Doc → Except String Unit
  /-- Models `FAISS.similarity_search` on the store built from the given docs. -/
  similaritySearch : List Doc → String → Nat → Except String (List Doc)
  /-- Models `groq_client.chat.completions.create(model=.., messages=.., ..)`. -/
  chatCompletion : List Msg → Except String LLMResponse
  /-- Models `json.loads`; the parsed top-level JSON object is modelled as a
  string-keyed dictionary; `error` models `json.JSONDecodeError`. -/
  jsonLoads : String → Except String (List (String × String))

/-! ### Python string helpers

Implemented with structural recursion on `List Char` so that every
definition evaluates inside the kernel (`decide`/`rfl`); Lean's own
`String.trim`, `splitOn`, `replace`, … use well-founded position loops
that do not reduce there. -/

/-- The characters Python `str.strip()` / `str.split()` treat as
whitespace (the ASCII ones; the sources only produce these). -/
def pyIsSpace (c : Char) : Bool :=
  c = ' ' || c = '\t' || c = '\n' || c = '\r' || c = '\x0b' || c = '\x0c'

/-- Python `s.strip()`. -/
def pyStrip (s : String) : String :=
  String.mk (((s.data.dropWhile pyIsSpace).reverse.dropWhile pyIsSpace).reverse)

/-- Python `s.lower()` (ASCII). -/
def pyLower (s : String) : String := String.mk (s.data.map Char.toLower)

/-- Python `s[:n]`. -/
def pyTake (s : String) (n : Nat) : String := String.mk (s.data.take n)

/-- Python `s[n:]`. -/
def pyDrop (s : String) (n : Nat) : String := String.mk (s.data.drop n)

/-- Python `s.startswith(pat)`. -/
def pyStartsWith (s pat : String) : Bool := pat.data.isPrefixOf s.data

/-- Models `pat in s` on character lists. -/
def hasSubList (pat : List Char) : List Char → Bool
  | [] => pat.isEmpty
  | s@(_ :: rest) => pat.isPrefixOf s || hasSubList pat rest

/-- Python `pat in s` (substring test). -/
def containsSub (s pat : String) : Bool := hasSubList pat.data s.data

/-- Python `s.strip() != ""`: the string has a non-whitespace character. -/
def nonBlank (s : String) : Bool := pyStrip s != ""

/-- Helper of `pyWords`: split into maximal non-whitespace runs. -/
def pyWordsAux : List Char → List Char → List (List Char)
  | [], acc => if acc.isEmpty then [] else [acc.reverse]
  | c :: rest, acc =>
    if pyIsSpace c then
      if acc.isEmpty then pyWordsAux rest [] else acc.reverse :: pyWordsAux rest []
    else pyWordsAux rest (c :: acc)

/-- Python `s.split()`: the words of a string. -/
def pyWords (s : String) : List String := (pyWordsAux s.data []).map String.mk

/-- Models `sep.join(parts)`. -/
def joinSep (sep : String) (parts : List String) : String :=
  match parts with
  | [] => ""
  | x :: rest => rest.foldl (fun acc y => acc ++ sep ++ y) x

instance {ε α : Type} [DecidableEq ε] [DecidableEq α] :
    DecidableEq (Except ε α) := fun x y =>
  match x, y with
  | .ok a, .ok b =>
    if h : a = b then .isTrue (by rw [h])
    else .isFalse (by intro he; cases he; exact h rfl)
  | .error a, .error b =>
    if h : a = b then .isTrue (by rw [h])
    else .isFalse (by intro he; cases he; exact h rfl)
  | .ok _, .error _ => .isFalse (by intro he; cases he)
  | .error _, .ok _ => .isFalse (by intro he; cases he)

/-- Helper of `pySplitOn`; the fuel (initialised to the string length,
an upper bound on the number of steps) keeps the recursion structural. -/
def splitOnFuel (pat : List Char) : Nat → List Char → List Char → List (List Char)
  | 0, _, acc => [acc.reverse]
  | _ + 1, [], acc => [acc.reverse]
  | n + 1, s@(c :: rest), acc =>
    if pat.isPrefixOf s then acc.reverse :: splitOnFuel pat n (s.drop pat.length) []
    else splitOnFuel pat n rest (c :: acc)

/-- Python `s.split(pat)` for a non-empty pattern. -/
def pySplitOn (s pat : String) : List String :=
  if pat = "" then [s]
  else (splitOnFuel pat.data s.data.length s.data []).map String.mk

/-- Python `s.split(pat, 1)`: split at the first occurrence only. -/
def splitOnce (s pat : String) : List String :=
  match pySplitOn s pat with
  | [] => [s]
  | [x] => [x]
  | x :: rest => [x, joinSep pat rest]

/-- Helper of `pyReplace`, fuelled like `splitOnFuel`. -/
def replaceFuel (pat rep : List Char) : Nat → List Char → List Char
  | 0, s => s
  | _ + 1, [] => []
  | n + 1, s@(c :: rest) =>
    if pat.isPrefixOf s then rep ++ replaceFuel pat rep n (s.drop pat.length)
    else c :: replaceFuel pat rep n rest

/-- Python `s.replace(pat, rep)`: every (non-overlapping, leftmost)
occurrence is replaced, for a non-empty pattern. -/
def pyReplace (s pat rep : String) : String :=
  if pat = "" then s
  else String.mk (replaceFuel pat.data rep.data s.data.length s.data)

/-- Models `os.path.basename` on a POSIX path. -/
def basename (s : String) : String := ((pySplitOn s "/").reverse).headD s

/-- Insert a separator before every character whose (0-based) index is
a positive multiple of 3; applied to reversed digits (helper for
Python's `f"{n:,}"` format). -/
def commaRevAux : List Char → Nat → List Char
  | [], _ => []
  | c :: rest, i =>
    if i % 3 = 0 ∧ i ≠ 0 then ',' :: c :: commaRevAux rest (i + 1)
    else c :: commaRevAux rest (i + 1)

/-- Python `f"{n:,}"`: decimal with thousands separators. -/
def commaFmt (n : Nat) : String :=
  String.mk ((commaRevAux (toString n).data.reverse 0).reverse)

/-! ### Python dictionaries

A `dict` is an insertion-ordered association list: assignment to an
existing key replaces its value in place, assignment to a fresh key
appends at the end.  `dictGet` is `d[k]` / `d.get(k)`. -/

def dictGet (d : List (String × α)) (k : String) : Option α :=
  (d.find? (fun p => p.1 = k)).map (·.2)

/-- Models `d[k] = v`.  The dicts the code builds never carry a key twice (every
write goes through `dictSet` starting from `[]`), so replacing the first
occurrence is exactly the `dict` assignment semantics. -/
def dictSet : List (String × α) → String → α → List (String × α)
  | [], k, v => [(k, v)]
  | p :: t, k, v => if p.1 = k then (k, v) :: t else p :: dictSet t k v

/-- The keys of a dict, in insertion order. -/
def dictKeys (d : List (String × α)) : List String := d.map Prod.fst

/-! ### `app/utils/document_processor.py` -/

/-- Models `DocumentProcessor.load_pdf`: validate the path, load the pages,
check they contain text, split into chunks, drop whitespace-only
chunks.  Every raised exception is re-wrapped with the
`"Error processing PDF: "` prefix by the method's `except` clause.
The second component lists the external calls performed. -/
def load_pdf (env : Env) (file_path : String) :
    Except String (List Doc) × List Event :=
  if env.fileExists file_path = false then
    (.error ("Error processing PDF: PDF file not found: " ++ file_path), [])
  else
    match env.loadPages file_path with
    | .error e => (.error ("Error processing PDF: " ++ e), [.loadPdf file_path])
    | .ok pages =>
      if pages = [] then
        (.error "Error processing PDF: PDF loaded but contains no pages",
         [.loadPdf file_path])
      else
        let total_text := joinSep "" (pages.map (·.page_content))
        if nonBlank total_text = false then
          (.error ("Error processing PDF: PDF contains no extractable text. " ++
                   "It may be an image-based PDF requiring OCR."),
           [.loadPdf file_path])
        else
          let chunks :=
            (env.splitDocuments pages).filter (fun c => nonBlank c.page_content)
          if chunks = [] then
            (.error "Error processing PDF: Document splitting produced no valid chunks",
             [.loadPdf file_path, .split pages])
          else (.ok chunks, [.loadPdf file_path, .split pages])

/-! ### `app/utils/vector_store.py` -/

/-- Models `VectorStoreManager.create_vector_store`: validate, keep non-blank
documents, build the FAISS index over them.  On success the store is
the list of surviving documents; internal exceptions are re-wrapped
with the `"Error creating vector store: "` prefix. -/
def create_vector_store (env : Env) (documents : List Doc) :
    Except String (List Doc) × List Event :=
  if documents = [] then
    (.error "Error creating vector store: Cannot create vector store with empty document list", [])
  else
    let valid_docs := documents.filter (fun d => nonBlank d.page_content)
    if valid_docs = [] then
      (.error "Error creating vector store: No valid documents with content found", [])
    else
      match env.fromDocuments valid_docs with
      | .error e => (.error ("Error creating vector store: " ++ e), [.createStore valid_docs])
      | .ok _ => (.ok valid_docs, [.createStore valid_docs])

/-! ### `app/models/rag_model.py`: state -/

/-- Models `self.document_stats` once filled by `process_document`. -/
structure DocStats where
  filename : String
  total_words : Nat
  total_characters : Nat
  total_chunks : Nat
deriving Repr, DecidableEq

/-- The `stats` sub-dict stored per comparison document. -/
structure CmpStats where
  total_words : Nat
  total_characters : Nat
  total_chunks : Nat
deriving Repr, DecidableEq

/-- One value of `self.documents`:
`{filename, chunks, total_text, stats, vector_store}`.  The per-document
`VectorStoreManager` is represented by the documents its FAISS index was
built from (it always holds an initialized store when stored here). -/
structure DocEntry where
  filename : String
  chunks : List Doc
  total_text : String
  stats : CmpStats
  vector_store : List Doc
deriving Repr, DecidableEq

/-- The mutable attributes of a `RAGModel` instance.  `vector_store` is
the shared `VectorStoreManager`'s store: `none` before any successful
`process_document` (`Optional[FAISS] = None`), otherwise the documents
the index was built from.  `document_stats` is `none` while the attribute
still holds its initial `{}` (the code only tests its truthiness). -/
structure RAGState where
  documents : List (String × DocEntry)
  vector_store : Option (List Doc)
  chat_histories : List (String × List Msg)
  document_stats : Option DocStats
deriving Repr, DecidableEq

/-- The state `RAGModel.__init__` establishes. -/
def ragInit : RAGState :=
  { documents := [], vector_store := none, chat_histories := [], document_stats := none }

/-- Models `RAGModel.get_session_history`: inserts an empty list for a fresh
session id, returns the list stored under the id. -/
def get_session_history (st : RAGState) (session_id : String) :
    List Msg × RAGState :=
  match dictGet st.chat_histories session_id with
  | some l => (l, st)
  | none => ([], { st with chat_histories := st.chat_histories ++ [(session_id, [])] })

/-- Net effect of `get_session_history(sid)` followed by appending
`pair` to the returned (shared, mutable) list. -/
def appendHistory (hs : List (String × List Msg)) (session_id : String)
    (pair : List Msg) : List (String × List Msg) :=
  dictSet hs session_id (((dictGet hs session_id).getD []) ++ pair)

/-- The `self.document_stats` dict built by `process_document`. -/
def statsOf (file_path : String) (chunks : List Doc) : DocStats :=
  let total_text := joinSep " " (chunks.map (·.page_content))
  { filename := basename file_path,
    total_words := (pyWords total_text).length,
    total_characters := total_text.length,
    total_chunks := chunks.length }

/-- Models `RAGModel.process_document`: load → (re-)filter → stats → vector
store, all in one `try`; any exception becomes the `"❌ Error: "`
message.  Note `self.document_stats` is assigned before the vector
store is created, so a failure there leaves the new stats behind. -/
def process_document (env : Env) (st : RAGState) (file_path : String) :
    String × RAGState × List Event :=
  match load_pdf env file_path with
  | (.error e, ev) => ("❌ Error: " ++ e, st, ev)
  | (.ok chunks, ev) =>
    -- `if not chunks: raise ValueError("No text extracted from PDF")`
    if chunks = [] then ("❌ Error: No text extracted from PDF", st, ev)
    else
      let chunks := chunks.filter (fun c => nonBlank c.page_content)
      if chunks = [] then ("❌ Error: No readable text after processing", st, ev)
      else
        let stats := statsOf file_path chunks
        let st1 := { st with document_stats := some stats }
        match create_vector_store env chunks with
        | (.error e, ev2) => ("❌ Error: " ++ e, st1, ev ++ ev2)
        | (.ok valid, ev2) =>
          ("✅ Processed '" ++ stats.filename ++ "'\n📊 " ++
             toString stats.total_chunks ++ " chunks | " ++
             commaFmt stats.total_words ++ " words",
           { st1 with vector_store := some valid }, ev ++ ev2)

/-! ### `RAGModel.process_multiple_documents` -/

/-- Models `doc_id = os.path.basename(file_path).replace('.pdf', '').replace(' ', '_')`.
Python `str.replace` replaces every occurrence, not only a suffix. -/
def docIdOf (file_path : String) : String :=
  pyReplace (pyReplace (basename file_path) ".pdf" "") " " "_"

/-- One value of the `results` dict returned by
`process_multiple_documents`. -/
inductive ProcResult where
  /-- Models `{'status': 'success', 'filename': .., 'stats': ..}` -/
  | success (filename : String) (stats : CmpStats)
  /-- Models `{'status': 'error', 'error': msg}` -/
  | failure (msg : String)
deriving Repr, DecidableEq

/-- Accumulator of the `for file_path in file_paths` loop. -/
structure MultiOut where
  results : List (String × ProcResult)
  state : RAGState
  trace : List Event
deriving Repr, DecidableEq

/-- One iteration of the loop body of `process_multiple_documents`. -/
def processOneDocument (env : Env) (acc : MultiOut) (file_path : String) : MultiOut :=
  let doc_id := docIdOf file_path
  match load_pdf env file_path with
  | (.error e, ev) =>
    { acc with results := dictSet acc.results doc_id (.failure e),
               trace := acc.trace ++ ev }
  | (.ok chunks, ev) =>
    if chunks = [] then
      { acc with results := dictSet acc.results doc_id (.failure "No text extracted"),
                 trace := acc.trace ++ ev }
    else
      let chunks := chunks.filter (fun c => nonBlank c.page_content)
      if chunks = [] then
        { acc with results := dictSet acc.results doc_id (.failure "No readable text"),
                   trace := acc.trace ++ ev }
      else
        let total_text := joinSep " " (chunks.map (·.page_content))
        -- a fresh VectorStoreManager is built for this document
        match create_vector_store env chunks with
        | (.error e, ev2) =>
          { acc with results := dictSet acc.results doc_id (.failure e),
                     trace := acc.trace ++ ev ++ ev2 }
        | (.ok valid, ev2) =>
          let stats : CmpStats :=
            { total_words := (pyWords total_text).length,
              total_characters := total_text.length,
              total_chunks := chunks.length }
          let entry : DocEntry :=
            { filename := basename file_path, chunks := chunks,
              total_text := total_text, stats := stats, vector_store := valid }
          { results := dictSet acc.results doc_id (.success (basename file_path) stats),
            state := { acc.state with documents := dictSet acc.state.documents doc_id entry },
            trace := acc.trace ++ ev ++ ev2 }

/-- Models `RAGModel.process_multiple_documents`. -/
def process_multiple_documents (env : Env) (st : RAGState)
    (file_paths : List String) : MultiOut :=
  file_paths.foldl (processOneDocument env) ⟨[], st, []⟩

/-- Abbreviation: the `stats` dict `process_multiple_documents` computes
for a chunk list. -/
def multiStatsOf (chunks : List Doc) : CmpStats :=
  let total_text := joinSep " " (chunks.map (·.page_content))
  ⟨(pyWords total_text).length, total_text.length, chunks.length⟩

/-- Abbreviation: the `self.documents` entry `process_multiple_documents`
stores for a successfully processed file. -/
def entryOf (file_path : String) (chunks : List Doc) : DocEntry :=
  ⟨basename file_path, chunks, joinSep " " (chunks.map (·.page_content)),
   multiStatsOf chunks, chunks⟩

/-! ### `RAGModel.compare_documents` -/

/-- Default `comparison_aspects` (used when the argument is falsy,
i.e. `None` or the empty list). -/
def defaultAspects : List String :=
  ["skills and technologies", "work experience and roles",
   "education and certifications", "key achievements",
   "overall strengths", "potential areas for growth"]

/-- The per-aspect extraction prompt (`context[:1500]` truncated). -/
def comparePrompt (aspect context : String) : String :=
  "Analyze this document section and extract information about " ++ aspect ++
  ".\nBe specific and concise. List key points as bullet points.\n\n" ++
  "Document section:\n" ++ pyTake context 1500 ++
  "\n\nExtract information about " ++ aspect ++ ":"

/-- The messages sent per (aspect, document) pair. -/
def compareMessages (aspect context : String) : List Msg :=
  [⟨"system", "You are a document analyzer. Extract specific information concisely in bullet points."⟩,
   ⟨"user", comparePrompt aspect context⟩]

/-- Body of the inner `for doc_id in doc_ids` loop: the cell value for
one aspect and one document, with the external calls made for it. -/
def compareOneDoc (env : Env) (st : RAGState) (aspect doc_id : String) :
    String × List Event :=
  match dictGet st.documents doc_id with
  | none => ("Document not found", [])
  | some doc_info =>
    let query := "information about " ++ aspect
    match env.similaritySearch doc_info.vector_store query 3 with
    | .error e => ("Error: " ++ e, [.search query 3])
    | .ok relevant_docs =>
      let context := joinSep "\n" (relevant_docs.map (·.page_content))
      let messages := compareMessages aspect context
      match env.chatCompletion messages with
      | .error e => ("Error: " ++ e, [.search query 3, .llmCall messages])
      | .ok response =>
        match response.choices.head? with
        | none =>   -- `response.choices[0]` raises IndexError on an empty list
          ("Error: list index out of range", [.search query 3, .llmCall messages])
        | some c =>
          (pyStrip c.message.content, [.search query 3, .llmCall messages])

/-- The inner loop over `doc_ids` for one aspect. -/
def compareAspect (env : Env) (st : RAGState) (doc_ids : List String)
    (aspect : String) : List (String × String) × List Event :=
  doc_ids.foldl
    (fun acc d =>
      let r := compareOneDoc env st aspect d
      (dictSet acc.1 d r.1, acc.2 ++ r.2))
    ([], [])

/-- Models `RAGModel.compare_documents`.  `aspects = []` stands for the falsy
`comparison_aspects=None` default. -/
def compare_documents (env : Env) (st : RAGState) (doc_ids : List String)
    (aspects : List String) : List (String × List (String × String)) × List Event :=
  let comparison_aspects := if aspects = [] then defaultAspects else aspects
  comparison_aspects.foldl
    (fun acc a =>
      let r := compareAspect env st doc_ids a
      (dictSet acc.1 a r.1, acc.2 ++ r.2))
    ([], [])

/-! ### `RAGModel.get_recommendation` -/

/-- The comparison context assembled from `comparison_data`. -/
def recContext (st : RAGState) (doc_ids : List String)
    (comparison_data : List (String × List (String × String))) : String :=
  doc_ids.foldl
    (fun acc doc_id =>
      match dictGet st.documents doc_id with
      | none => acc
      | some info =>
        comparison_data.foldl
          (fun acc2 p =>
            match dictGet p.2 doc_id with
            | none => acc2
            | some v => acc2 ++ "**" ++ p.1 ++ ":**\n" ++ v ++ "\n\n")
          (acc ++ "\n### Document: " ++ info.filename ++ "\n"))
    "Document Comparison Analysis:\n\n"

/-- The recommendation prompt. -/
def recPrompt (role_context context : String) : String :=
  "Based on the document comparison below, provide a comprehensive recommendation" ++
  role_context ++ ".\n\n" ++ context ++
  "\n\nProvide your analysis in this format:\n\n## Overall Recommendation\n" ++
  "[Which document/candidate is the strongest and why - be specific]\n\n" ++
  "## Individual Strengths\n[List key strengths of each candidate]\n\n" ++
  "## Best Fit Analysis\n[Explain which candidate is best suited and why]\n\n" ++
  "## Key Differentiators\n[What sets the top candidate apart]\n\n" ++
  "Be specific, actionable, and professional."

/-- The messages `get_recommendation` sends. -/
def recMessages (st : RAGState) (doc_ids : List String) (job_role : String)
    (comparison_data : List (String × List (String × String))) : List Msg :=
  let role_context :=
    if job_role != "" then " for the role of '" ++ job_role ++ "'" else ""
  [⟨"system", "You are an expert analyst providing detailed, actionable recommendations."⟩,
   ⟨"user", recPrompt role_context (recContext st doc_ids comparison_data)⟩]

/-- Models `RAGModel.get_recommendation`: compare, build the context, one LLM
call; a failure of that call becomes the returned error string. -/
def get_recommendation (env : Env) (st : RAGState) (doc_ids : List String)
    (job_role : String) : String × List Event :=
  let cmp := compare_documents env st doc_ids []
  let messages := recMessages st doc_ids job_role cmp.1
  match env.chatCompletion messages with
  | .error e => ("Error generating recommendation: " ++ e, cmp.2 ++ [.llmCall messages])
  | .ok response =>
    match response.choices.head? with
    | none => ("Error generating recommendation: list index out of range",
               cmp.2 ++ [.llmCall messages])
    | some c => (pyStrip c.message.content, cmp.2 ++ [.llmCall messages])

/-! ### `RAGModel.extract_structured_data` -/

/-- The extraction prompt (braces of the JSON template written as
`\x7b`/`\x7d`). -/
def extractPrompt (text : String) : String :=
  "Extract structured information from this document.\n" ++
  "    Provide a JSON response with these fields (use \"N/A\" if not found):\n" ++
  "    \x7b\n      \"name\": \"Full name\",\n      \"email\": \"Email address\",\n" ++
  "      \"phone\": \"Phone number\",\n      \"skills\": [\"skill1\", \"skill2\", \"skill3\"],\n" ++
  "      \"experience_years\": 0,\n      \"education\": [\"degree1\", \"degree2\"],\n" ++
  "      \"certifications\": [\"cert1\", \"cert2\"],\n" ++
  "      \"key_achievements\": [\"achievement1\", \"achievement2\", \"achievement3\"]\n    \x7d\n\n" ++
  "    Document text:\n    " ++ text ++ "\n\n    Respond with ONLY valid JSON, no other text."

/-- The messages `extract_structured_data` sends. -/
def extractMessages (text : String) : List Msg :=
  [⟨"system", "You are a data extraction specialist. Return only valid JSON."⟩,
   ⟨"user", extractPrompt text⟩]

/-- Line 299 of `rag_model.py` reads `response.choices.message`:
`choices` is a Python list and has no attribute `message`, so this
access raises `AttributeError` unconditionally (it never indexes the
list).  The generic `except Exception` of the method catches it. -/
def choicesMessageAttr (_ : List LLMChoice) : Except String LLMMessage :=
  .error "'list' object has no attribute 'message'"

/-- The markdown code-block cleaning applied to the (never reached)
LLM reply text. -/
def cleanMarkdownBlock (result0 : String) : String :=
  if pyStartsWith result0 "```" then
    let result1 :=
      match splitOnce result0 "```" with
      | _ :: second :: _ => second
      | _ => result0
    let result2 :=
      if pyStartsWith result1 "json" then pyStrip (pyDrop result1 4) else result1
    if containsSub result2 "```" then pyStrip ((pySplitOn result2 "```").headD result2)
    else result2
  else result0

/-- Models `RAGModel.extract_structured_data`.  The returned Python dict is
modelled as a string-keyed association list (the error dicts the method
can actually return only hold string values). -/
def extract_structured_data (env : Env) (st : RAGState) (doc_id : String) :
    List (String × String) × List Event :=
  match dictGet st.documents doc_id with
  | none => ([("error", "Document not found")], [])
  | some doc_info =>
    let text := pyTake doc_info.total_text 4000
    let messages := extractMessages text
    match env.chatCompletion messages with
    | .error e => ([("error", "Extraction failed: " ++ e)], [.llmCall messages])
    | .ok response =>
      match choicesMessageAttr response.choices with
      | .error e => ([("error", "Extraction failed: " ++ e)], [.llmCall messages])
      | .ok m =>
        -- dead code: `choicesMessageAttr` always raises
        let result := cleanMarkdownBlock (pyStrip m.content)
        match env.jsonLoads result with
        | .error _ =>
          ([("error", "Could not parse structured data"),
            ("raw_response", pyTake result 200)], [.llmCall messages])
        | .ok j => (j, [.llmCall messages])

/-! ### `RAGModel.ask_question` and the remaining methods -/

/-- The keyword list of the statistics shortcut. -/
def statsKeywords : List String :=
  ["how many words", "word count", "total words", "page count", "document size"]

/-- Models `any(kw in ql for kw in [...])` with `ql = question.lower().strip()`. -/
def statsKeywordHit (question : String) : Bool :=
  statsKeywords.any (fun kw => containsSub (pyStrip (pyLower question)) kw)

/-- The shortcut fires when a keyword matches and `self.document_stats`
is truthy. -/
def statsShortcut (st : RAGState) (question : String) : Bool :=
  statsKeywordHit question && st.document_stats.isSome

/-- The formatted statistics answer. -/
def statsAnswerText (s : DocStats) : String :=
  "**Document Statistics:**\n\n📄 File: " ++ s.filename ++
  "\n📊 Total Words: " ++ commaFmt s.total_words ++
  "\n🔤 Characters: " ++ commaFmt s.total_characters ++
  "\n📑 Chunks: " ++ toString s.total_chunks

/-- The system prompt of `ask_question`. -/
def askSystemPrompt : String :=
  "You are a document assistant. Answer using ONLY the provided context.\n\n" ++
  "Rules:\n- Extract facts, names, dates, numbers from context\n" ++
  "- If asked for summary, cover main points\n- If asked for details, be specific\n" ++
  "- If not in context, say: \"I cannot find that information\"\n" ++
  "- Do not add information not in context"

/-- The messages `ask_question` sends: the retrieved chunks are joined
with blank lines, in the order the vector store returned them, and
embedded verbatim in the user message. -/
def askMessages (question : String) (relevant_docs : List Doc) : List Msg :=
  let context := joinSep "\n\n" (relevant_docs.map (·.page_content))
  [⟨"system", askSystemPrompt⟩,
   ⟨"user", "Context:\n" ++ context ++ "\n\nQuestion: " ++ question ++ "\n\nAnswer:"⟩]

/-- Models `for prefix in ["Answer:", "Response:", "A:"]` cleanup (first match
wins, then the loop breaks). -/
def stripAnswerLabel (a : String) : String :=
  if pyStartsWith a "Answer:" then pyStrip (pyDrop a "Answer:".length)
  else if pyStartsWith a "Response:" then pyStrip (pyDrop a "Response:".length)
  else if pyStartsWith a "A:" then pyStrip (pyDrop a "A:".length)
  else a

/-- What `ask_question` returns. -/
structure AnswerResult where
  answer : String
  sources : List String
  session_id : String
deriving Repr, DecidableEq

/-- Result, post-state and external calls of one `ask_question` run. -/
structure AskOut where
  result : AnswerResult
  state : RAGState
  trace : List Event
deriving Repr, DecidableEq

/-- Models `RAGModel.ask_question`. -/
def ask_question (env : Env) (st : RAGState) (question : String)
    (session_id : String) : AskOut :=
  match st.vector_store with
  | none =>
    ⟨⟨"Please upload and process a document first.", [], session_id⟩, st, []⟩
  | some store =>
    match statsKeywordHit question, st.document_stats with
    | true, some s =>
      let answer := statsAnswerText s
      ⟨⟨answer, ["Calculated from document"], session_id⟩,
       { st with chat_histories :=
           (appendHistory st.chat_histories session_id
             [⟨"user", question⟩, ⟨"assistant", answer⟩]) }, []⟩
    | _, _ =>
      match env.similaritySearch store question 6 with
      | .error e => ⟨⟨"Error: " ++ e, [], session_id⟩, st, [.search question 6]⟩
      | .ok relevant_docs =>
        let messages := askMessages question relevant_docs
        match env.chatCompletion messages with
        | .error e =>
          ⟨⟨"Error: " ++ e, [], session_id⟩, st, [.search question 6, .llmCall messages]⟩
        | .ok response =>
          match response.choices.head? with
          | none =>   -- `response.choices[0]` raises IndexError
            ⟨⟨"Error: list index out of range", [], session_id⟩, st,
             [.search question 6, .llmCall messages]⟩
          | some c =>
            let answer := stripAnswerLabel (pyStrip c.message.content)
            let sources :=
              (relevant_docs.take 3).map (fun d => pyTake d.page_content 200 ++ "...")
            ⟨⟨answer, sources, session_id⟩,
             { st with chat_histories :=
                 (appendHistory st.chat_histories session_id
                   [⟨"user", question⟩, ⟨"assistant", answer⟩]) },
             [.search question 6, .llmCall messages]⟩

/-- Models `RAGModel.clear_chat_history`. -/
def clear_chat_history (st : RAGState) (session_id : String) : String × RAGState :=
  if (dictGet st.chat_histories session_id).isSome then
    ("Chat history cleared for session: " ++ session_id,
     { st with chat_histories := dictSet st.chat_histories session_id [] })
  else ("No chat history found for session: " ++ session_id, st)

/-- Models `RAGModel.clear_comparison_data`. -/
def clear_comparison_data (st : RAGState) : String × RAGState :=
  ("Comparison data cleared", { st with documents := [] })

/-! ### `app/models/chat_model.py` (`ChatRAGModel`)

`ChatRAGModel.__init__` never assigns `self.llm` nor
`self.retrieval_chain`, and no other method of the repository assigns
them either (`create_enhanced_chat_chain` would assign
`retrieval_chain`, but it reads `self.llm` first).  An attribute that
was never assigned is modelled as `none`; reading it raises
`AttributeError`. -/

/-- Python attribute read on a possibly-absent attribute. -/
def attrRead (obj attr : String) : Option α → Except String α
  | none => .error ("'" ++ obj ++ "' object has no attribute '" ++ attr ++ "'")
  | some a => .ok a

/-- The mutable attributes of a `ChatRAGModel` instance (the
`conversation_memories` bookkeeping and the prompt templates are
constants/unobserved and are omitted). -/
structure ChatState where
  rag : RAGState
  /-- Models `self.llm`: referenced but never assigned anywhere in the class. -/
  llm : Option Unit
  /-- Models `self.retrieval_chain`: assigned only by
  `create_enhanced_chat_chain` after the `self.llm` read succeeds. -/
  retrieval_chain : Option Unit
deriving Repr, DecidableEq

/-- The state `ChatRAGModel.__init__` establishes. -/
def chatInit : ChatState := { rag := ragInit, llm := none, retrieval_chain := none }

/-- Models `ChatRAGModel.create_enhanced_chat_chain`: `.ok b` is a normal
return of `b`, `.error` a propagated exception. -/
def create_enhanced_chat_chain (cst : ChatState) : Except String (ChatState × Bool) :=
  match cst.rag.vector_store with
  | some _ =>
    match attrRead "ChatRAGModel" "llm" cst.llm with
    | .error e => .error e
    | .ok _ => .ok ({ cst with retrieval_chain := some () }, true)
  | none => .ok (cst, false)

/-- Models `ChatRAGModel.process_document` (overrides the parent): load, build
the shared store, then try to build the chain; any exception of the
`try` becomes the error message, but the store mutation persists. -/
def chat_process_document (env : Env) (cst : ChatState) (file_path : String) :
    String × ChatState :=
  match load_pdf env file_path with
  | (.error e, _) => ("Error processing document: " ++ e, cst)
  | (.ok chunks, _) =>
    match create_vector_store env chunks with
    | (.error e, _) => ("Error processing document: " ++ e, cst)
    | (.ok valid, _) =>
      let cst1 := { cst with rag := { cst.rag with vector_store := some valid } }
      match create_enhanced_chat_chain cst1 with
      | .error e => ("Error processing document: " ++ e, cst1)
      | .ok (cst2, true) =>
        ("Successfully processed document with " ++ toString chunks.length ++
         " chunks and enhanced chat capabilities.", cst2)
      | .ok (cst2, false) =>
        ("Document processed (" ++ toString chunks.length ++
         " chunks) but chat chain creation failed.", cst2)

/-- What `ask_question_with_memory` would return normally. -/
structure ChatAnswer where
  answer : String
  sources : List String
  session_id : String
  memory_used : Bool
deriving Repr, DecidableEq

/-- Models `ChatRAGModel.ask_question_with_memory`.  The guard
`if self.retrieval_chain is None` reads the attribute *outside* the
`try` block, so the `AttributeError` it raises propagates to the
caller (`Except.error`).  Were the attribute present, the first line
of the `try` body, `self.get_session_history(session_id).messages`,
would read attribute `messages` of a plain Python list and the generic
handler would return the error answer. -/
def ask_question_with_memory (cst : ChatState) (question session_id : String) :
    Except String ChatAnswer :=
  match attrRead "ChatRAGModel" "retrieval_chain" cst.retrieval_chain with
  | .error e => .error e
  | .ok _ =>
    .ok ⟨"Error generating answer: 'list' object has no attribute 'messages'",
         [], session_id, false⟩

/-- The `ChatRAGModel` states reachable from a fresh instance through
the operations that touch its state. -/
inductive ChatReach : ChatState → Prop where
  | init : ChatReach chatInit
  | proc (env : Env) (path : String) (c : ChatState) :
      ChatReach c → ChatReach (chat_process_document env c path).2
  | askq (env : Env) (q sid : String) (c : ChatState) :
      ChatReach c → ChatReach { c with rag := (ask_question env c.rag q sid).state }

/-! ### `app/main.py`: the comparison-mode upload handler

The sidebar shows the `Process & Compare` button only under
`if uploaded_files and len(uploaded_files) >= 2`; the click handler
starts with `if len(uploaded_files) > 3: st.error(...)` and only in its
`else` branch writes the temp files and calls
`process_multiple_documents`.  Uploaded files are written to
`tempfile.gettempdir()` under their original names, so the paths passed
down have the uploaded names as basenames; the handler is modelled with
the uploaded file names as the paths.  (The `already_processed` /
`files_changed` session bookkeeping can only *hide* the button further
and is omitted.) -/

/-- What one render-plus-click of the comparison upload sidebar does. -/
structure HandlerOut where
  buttonOffered : Bool
  errorShown : Option String
  results : Option (List (String × ProcResult))
  state : RAGState
  trace : List Event
deriving Repr, DecidableEq

def comparison_upload_handler (env : Env) (st : RAGState)
    (uploaded_files : List String) (clicked : Bool) : HandlerOut :=
  if uploaded_files ≠ [] ∧ uploaded_files.length ≥ 2 then
    if clicked then
      if uploaded_files.length > 3 then
        ⟨true, some "Maximum 3 documents allowed", none, st, []⟩
      else
        let out := process_multiple_documents env st uploaded_files
        ⟨true, none, some out.results, out.state, out.trace⟩
    else ⟨true, none, none, st, []⟩
  else ⟨false, none, none, st, []⟩

/-! ### Reachable `RAGModel` states -/

/-- The `RAGModel` states reachable from a fresh instance through the
methods that touch its state. -/
inductive RAGReach : RAGState → Prop where
  | init : RAGReach ragInit
  | proc (env : Env) (path : String) (st : RAGState) :
      RAGReach st → RAGReach (process_document env st path).2.1
  | multi (env : Env) (paths : List String) (st : RAGState) :
      RAGReach st → RAGReach (process_multiple_documents env st paths).state
  | ask (env : Env) (q sid : String) (st : RAGState) :
      RAGReach st → RAGReach (ask_question env st q sid).state
  | hist (sid : String) (st : RAGState) :
      RAGReach st → RAGReach (get_session_history st sid).2
  | clear (sid : String) (st : RAGState) :
      RAGReach st → RAGReach (clear_chat_history st sid).2
  | clearCmp (st : RAGState) :
      RAGReach st → RAGReach (clear_comparison_data st).2

/-! ### Concrete environments used by witnesses and counterexamples -/

/-- All external collaborators behave: a two-page PDF, the identity
splitter, a FAISS index answering top-k with the first `k` stored
chunks, an LLM answering a fixed text. -/
def envOk : Env :=
  { fileExists := fun _ => true
    loadPages := fun _ => .ok [⟨"alpha beta"⟩, ⟨" gamma"⟩]
    splitDocuments := fun pages => pages
    fromDocuments := fun _ => .ok ()
    similaritySearch := fun store _q k => .ok (store.take k)
    chatCompletion := fun _ => .ok ⟨[⟨⟨"Answer text"⟩⟩]⟩
    jsonLoads := fun _ => .error "Expecting value: line 1 column 1 (char 0)" }

/-- Every external collaborator raises. -/
def envFail : Env :=
  { fileExists := fun _ => true
    loadPages := fun _ => .error "pdf backend down"
    splitDocuments := fun pages => pages
    fromDocuments := fun _ => .error "faiss down"
    similaritySearch := fun _ _ _ => .error "search down"
    chatCompletion := fun _ => .error "api down"
    jsonLoads := fun _ => .error "Expecting value" }

/-- A state with one processed document, as left by
`process_document envOk ragInit "doc.pdf"`. -/
def st1 : RAGState := (process_document envOk ragInit "doc.pdf").2.1


/-- Predicates on trace events. -/
def isSearchEv : Event → Bool
  | .search _ _ => true
  | _ => false

def isLlmEv : Event → Bool
  | .llmCall _ => true
  | _ => false

def isLoadEv : Event → Bool
  | .loadPdf _ => true
  | _ => false

def isStoreEv : Event → Bool
  | .createStore _ => true
  | _ => false

/-- A history is a sequence of complete user/assistant exchanges: even
length, alternating roles starting with `"user"`. -/
def alternatingUA : List Msg → Bool
  | [] => true
  | [_] => false
  | u :: a :: rest =>
    (u.role == "user") && (a.role == "assistant") && alternatingUA rest

/-- Every stored session history is a list of complete user/assistant
exchanges. -/
def histWF (hs : List (String × List Msg)) : Prop :=
  ∀ p ∈ hs, alternatingUA p.2 = true

/-! ### Helper lemmas -/

theorem dictGet_cons (p : String × α) (t : List (String × α)) (k : String) :
    dictGet (p :: t) k = if p.1 = k then some p.2 else dictGet t k := by
  by_cases hp : p.1 = k <;> simp [dictGet, List.find?, hp]

theorem dictGet_dictSet_self (d : List (String × α)) (k : String) (v : α) :
    dictGet (dictSet d k v) k = some v := by
  induction d with
  | nil => simp [dictSet, dictGet, List.find?]
  | cons p t ih =>
    by_cases hp : p.1 = k
    · simp [dictSet, hp, dictGet_cons]
    · simp [dictSet, hp, dictGet_cons, ih]

theorem dictGet_dictSet_ne (d : List (String × α)) (k t : String) (v : α)
    (h : t ≠ k) : dictGet (dictSet d k v) t = dictGet d t := by
  have hkt : ¬ k = t := fun he => h he.symm
  induction d with
  | nil => simp [dictSet, dictGet_cons, hkt, dictGet]
  | cons p tl ih =>
    by_cases hp : p.1 = k
    · simp [dictSet, hp, dictGet_cons, hkt]
    · simp [dictSet, hp, dictGet_cons, ih]

theorem dictKeys_dictSet (d : List (String × α)) (k : String) (v : α) :
    dictKeys (dictSet d k v) =
      if k ∈ dictKeys d then dictKeys d else dictKeys d ++ [k] := by
  induction d with
  | nil => simp [dictSet, dictKeys]
  | cons p t ih =>
    by_cases hp : p.1 = k
    · simp [dictSet, hp, dictKeys]
    · have hk : ¬ k = p.1 := fun he => hp he.symm
      simp only [dictKeys] at ih
      by_cases hm : k ∈ List.map Prod.fst t <;>
        simp [dictSet, hp, dictKeys, hk, hm, ih]

theorem count_dictKeys_dictSet (d : List (String × α)) (k : String) (v : α) :
    (dictKeys (dictSet d k v)).count k = max ((dictKeys d).count k) 1 := by
  induction d with
  | nil => simp [dictSet, dictKeys]
  | cons p t ih =>
    by_cases hp : p.1 = k
    · simp [dictSet, hp, dictKeys, List.count_cons]
      try omega
    · have hk : ¬ k = p.1 := fun he => hp he.symm
      simp [dictSet, hp, dictKeys, List.count_cons, hk] at ih ⊢
      try omega


theorem mem_dictSet {α : Type} {p : String × α} {d : List (String × α)}
    {k : String} {v : α} (hp : p ∈ dictSet d k v) : p ∈ d ∨ p = (k, v) := by
  induction d with
  | nil => simp [dictSet] at hp; right; exact hp
  | cons q t ih =>
    by_cases hq : q.1 = k
    · simp only [dictSet, if_pos hq, List.mem_cons] at hp
      rcases hp with hp | hp
      · right; exact hp
      · left; exact List.mem_cons_of_mem q hp
    · simp only [dictSet, if_neg hq, List.mem_cons] at hp
      rcases hp with hp | hp
      · left; simp [hp]
      · rcases ih hp with h | h
        · left; exact List.mem_cons_of_mem q h
        · right; exact h

theorem mem_foldl_dictSet {α : Type} (g : String → α) (ids : List String) :
    ∀ (m : List (String × α)) (p : String × α),
      p ∈ ids.foldl (fun m a => dictSet m a (g a)) m →
      p ∈ m ∨ (p.2 = g p.1 ∧ p.1 ∈ ids) := by
  induction ids with
  | nil => intro m p hp; left; exact hp
  | cons a rest ih =>
    intro m p hp
    rcases ih (dictSet m a (g a)) p hp with h | h
    · rcases mem_dictSet h with h2 | h2
      · left; exact h2
      · right; exact ⟨by simp [h2], by simp [h2]⟩
    · right; exact ⟨h.1, List.mem_cons_of_mem a h.2⟩

theorem dictGet_foldl_set_notmem {α : Type} (g : String → α) (ids : List String)
    (d : String) (hd : d ∉ ids) :
    ∀ m : List (String × α),
      dictGet (ids.foldl (fun m x => dictSet m x (g x)) m) d = dictGet m d := by
  induction ids with
  | nil => intro m; rfl
  | cons x rest ih =>
    intro m
    have hdx : d ≠ x := fun he => hd (he ▸ List.mem_cons_self x rest)
    have hdr : d ∉ rest := fun he => hd (List.mem_cons_of_mem x he)
    rw [List.foldl_cons, ih hdr, dictGet_dictSet_ne _ _ _ _ hdx]

theorem dictGet_foldl_set_mem {α : Type} (g : String → α) (ids : List String)
    (d : String) (hd : d ∈ ids) :
    ∀ m : List (String × α),
      dictGet (ids.foldl (fun m x => dictSet m x (g x)) m) d = some (g d) := by
  induction ids with
  | nil => cases hd
  | cons x rest ih =>
    intro m
    by_cases hdr : d ∈ rest
    · rw [List.foldl_cons, ih hdr]
    · have hdx : d = x := by
        rcases List.mem_cons.mp hd with h | h
        · exact h
        · exact absurd h hdr
      subst hdx
      rw [List.foldl_cons, dictGet_foldl_set_notmem g rest d hdr,
        dictGet_dictSet_self]

theorem mem_dictKeys_foldl {α : Type} (g : String → α) (ids : List String)
    (k : String) :
    ∀ m : List (String × α),
      k ∈ dictKeys (ids.foldl (fun m x => dictSet m x (g x)) m) →
      k ∈ ids ∨ k ∈ dictKeys m := by
  induction ids with
  | nil => intro m h; right; exact h
  | cons x rest ih =>
    intro m h
    rcases ih (dictSet m x (g x)) h with h2 | h2
    · left; exact List.mem_cons_of_mem x h2
    · rw [dictKeys_dictSet] at h2
      by_cases hm : x ∈ dictKeys m
      · rw [if_pos hm] at h2; right; exact h2
      · rw [if_neg hm] at h2
        rcases List.mem_append.mp h2 with h3 | h3
        · right; exact h3
        · left; simp at h3; simp [h3]

theorem count_dictKeys_dictSet_ne {α : Type} (d : List (String × α))
    (k t : String) (v : α) (h : t ≠ k) :
    (dictKeys (dictSet d k v)).count t = (dictKeys d).count t := by
  rw [dictKeys_dictSet]
  by_cases hm : k ∈ dictKeys d
  · rw [if_pos hm]
  · rw [if_neg hm, List.count_append]
    simp [List.count_singleton, h]

theorem count_dictKeys_foldl {α : Type} (g : String → α) (ids : List String)
    (d : String) :
    ∀ m : List (String × α),
      (dictKeys (ids.foldl (fun m x => dictSet m x (g x)) m)).count d =
        if d ∈ ids then max ((dictKeys m).count d) 1 else (dictKeys m).count d := by
  induction ids with
  | nil => intro m; simp
  | cons x rest ih =>
    intro m
    rw [List.foldl_cons, ih (dictSet m x (g x))]
    by_cases hdx : d = x
    · subst hdx
      rw [count_dictKeys_dictSet]
      by_cases hdr : d ∈ rest <;>
        simp [hdr, List.mem_cons] <;> omega
    · rw [count_dictKeys_dictSet_ne _ _ _ _ hdx]
      by_cases hdr : d ∈ rest <;> simp [hdr, List.mem_cons, hdx]

theorem dictKeys_foldl_nodup {α : Type} (g : String → α) (ids : List String)
    (hn : ids.Nodup) :
    ∀ m : List (String × α), (∀ a ∈ ids, a ∉ dictKeys m) →
      dictKeys (ids.foldl (fun m x => dictSet m x (g x)) m) = dictKeys m ++ ids := by
  induction ids with
  | nil => intro m _; simp
  | cons x rest ih =>
    intro m hm
    have hx : x ∉ dictKeys m := hm x (List.mem_cons_self x rest)
    rw [List.foldl_cons, ih (List.Nodup.of_cons hn) (dictSet m x (g x))]
    · rw [dictKeys_dictSet, if_neg hx]
      simp
    · intro a ha
      rw [dictKeys_dictSet, if_neg hx]
      intro hmem
      rcases List.mem_append.mp hmem with h2 | h2
      · exact hm a (List.mem_cons_of_mem x ha) h2
      · simp at h2
        subst h2
        exact (List.nodup_cons.mp hn).1 ha

theorem foldl_fst_indep {α β σ : Type} (l : List σ) (F : α → σ → α)
    (G : σ → List β) :
    ∀ (a : α) (tr : List β),
      (l.foldl (fun acc x => (F acc.1 x, acc.2 ++ G x)) (a, tr)).1 =
        l.foldl F a := by
  induction l with
  | nil => intro a tr; rfl
  | cons x rest ih => intro a tr; exact ih (F a x) (tr ++ G x)

/-- Lemma: `ask_question` on the statistics shortcut: the stored stats are
formatted, the pair is appended to the session history, and no external
call happens. -/
theorem ask_question_stats (env : Env) (st : RAGState) (q sid : String)
    (store : List Doc) (s : DocStats) (h : st.vector_store = some store)
    (hk : statsKeywordHit q = true) (hs : st.document_stats = some s) :
    ask_question env st q sid =
      ⟨⟨statsAnswerText s, ["Calculated from document"], sid⟩,
       { st with chat_histories :=
           (appendHistory st.chat_histories sid
             [⟨"user", q⟩, ⟨"assistant", statsAnswerText s⟩]) }, []⟩ := by
  unfold ask_question
  rw [h, hk, hs]

/-- Lemma: `ask_question` off the shortcut: one retrieval, then (when it
succeeds) one LLM call, with the handler of the `except` clause turning
a raise into the error answer. -/
theorem ask_question_not_stats (env : Env) (st : RAGState) (q sid : String)
    (store : List Doc) (h : st.vector_store = some store)
    (h2 : statsShortcut st q = false) :
    ask_question env st q sid =
      match env.similaritySearch store q 6 with
      | .error e => ⟨⟨"Error: " ++ e, [], sid⟩, st, [.search q 6]⟩
      | .ok relevant_docs =>
        match env.chatCompletion (askMessages q relevant_docs) with
        | .error e =>
          ⟨⟨"Error: " ++ e, [], sid⟩, st,
           [.search q 6, .llmCall (askMessages q relevant_docs)]⟩
        | .ok response =>
          match response.choices.head? with
          | none =>
            ⟨⟨"Error: list index out of range", [], sid⟩, st,
             [.search q 6, .llmCall (askMessages q relevant_docs)]⟩
          | some c =>
            ⟨⟨stripAnswerLabel (pyStrip c.message.content),
              (relevant_docs.take 3).map (fun d => pyTake d.page_content 200 ++ "..."),
              sid⟩,
             { st with chat_histories :=
                 (appendHistory st.chat_histories sid
                   [⟨"user", q⟩,
                    ⟨"assistant", stripAnswerLabel (pyStrip c.message.content)⟩]) },
             [.search q 6, .llmCall (askMessages q relevant_docs)]⟩ := by
  unfold statsShortcut at h2
  unfold ask_question
  rw [h]
  cases hk : statsKeywordHit q with
  | false => rfl
  | true =>
    cases hs : st.document_stats with
    | none => rfl
    | some s => rw [hk, hs] at h2; simp at h2

/-- Per question, at most one similarity search happens. -/
theorem ask_searches_le_one (env : Env) (st : RAGState) (q sid : String) :
    ((ask_question env st q sid).trace.filter isSearchEv).length ≤ 1 := by
  cases h : st.vector_store with
  | none => unfold ask_question; rw [h]; simp
  | some store =>
    cases h2 : statsShortcut st q with
    | false =>
      rw [ask_question_not_stats env st q sid store h h2]
      split
      · simp [isSearchEv]
      · split
        · simp [isSearchEv]
        · split <;> simp [isSearchEv]
    | true =>
      unfold statsShortcut at h2
      obtain ⟨hk, hd⟩ := Bool.and_eq_true_iff.mp h2
      obtain ⟨s, hs⟩ := Option.isSome_iff_exists.mp hd
      rw [ask_question_stats env st q sid store s h hk hs]
      simp

/-- Per question, at most one LLM call happens. -/
theorem ask_llm_le_one (env : Env) (st : RAGState) (q sid : String) :
    ((ask_question env st q sid).trace.filter isLlmEv).length ≤ 1 := by
  cases h : st.vector_store with
  | none => unfold ask_question; rw [h]; simp
  | some store =>
    cases h2 : statsShortcut st q with
    | false =>
      rw [ask_question_not_stats env st q sid store h h2]
      split
      · simp [isLlmEv, isSearchEv]
      · split
        · simp [isLlmEv, isSearchEv]
        · split <;> simp [isLlmEv, isSearchEv]
    | true =>
      unfold statsShortcut at h2
      obtain ⟨hk, hd⟩ := Bool.and_eq_true_iff.mp h2
      obtain ⟨s, hs⟩ := Option.isSome_iff_exists.mp hd
      rw [ask_question_stats env st q sid store s h hk hs]
      simp

/-- Lemma: `load_pdf` only returns chunk lists that are non-empty and already
free of whitespace-only chunks. -/
theorem load_pdf_ok_props (env : Env) (path : String) (chunks : List Doc)
    (h : (load_pdf env path).1 = .ok chunks) :
    chunks ≠ [] ∧
    chunks.filter (fun c => nonBlank c.page_content) = chunks := by
  unfold load_pdf at h
  simp only [] at h
  split at h
  · simp at h
  · split at h
    · simp at h
    · split at h
      · simp at h
      · split at h
        · simp at h
        · split at h
          next hc => simp at h
          next hc =>
            simp only [Except.ok.injEq] at h
            subst h
            exact ⟨hc, by simp [List.filter_filter]⟩

/-- The external calls of one `load_pdf` run: at most one PDF load, no
index build. -/
theorem load_pdf_trace_counts (env : Env) (path : String) :
    (((load_pdf env path).2).filter isLoadEv).length ≤ 1 ∧
    (((load_pdf env path).2).filter isStoreEv).length = 0 := by
  unfold load_pdf
  simp only []
  repeat' split
  all_goals simp [isLoadEv, isStoreEv]

/-- The external calls of one `create_vector_store` run: no PDF load,
at most one index build. -/
theorem create_store_trace_counts (env : Env) (docs : List Doc) :
    (((create_vector_store env docs).2).filter isLoadEv).length = 0 ∧
    (((create_vector_store env docs).2).filter isStoreEv).length ≤ 1 := by
  unfold create_vector_store
  simp only []
  repeat' split
  all_goals simp [isLoadEv, isStoreEv]

/-- Lemma: `process_document` never touches the documents map nor the chat
histories, and performs at most one load and one index build. -/
theorem process_document_frame (env : Env) (st : RAGState) (path : String) :
    (process_document env st path).2.1.documents = st.documents ∧
    (process_document env st path).2.1.chat_histories = st.chat_histories ∧
    ((process_document env st path).2.2.filter isLoadEv).length ≤ 1 ∧
    ((process_document env st path).2.2.filter isStoreEv).length ≤ 1 := by
  have hl := load_pdf_trace_counts env path
  rcases hpair : load_pdf env path with ⟨r, ev⟩
  rw [hpair] at hl
  simp only at hl
  unfold process_document
  rw [hpair]
  cases r with
  | error e => exact ⟨rfl, rfl, by simp only []; omega, by simp only []; omega⟩
  | ok chunks =>
    simp only []
    split
    · exact ⟨rfl, rfl, by simp only []; omega, by simp only []; omega⟩
    · split
      · exact ⟨rfl, rfl, by simp only []; omega, by simp only []; omega⟩
      · have hcs := create_store_trace_counts env
          (chunks.filter (fun c => nonBlank c.page_content))
        rcases hcp : create_vector_store env
            (chunks.filter (fun c => nonBlank c.page_content)) with ⟨r2, ev2⟩
        rw [hcp] at hcs
        simp only at hcs
        cases r2 <;>
          exact ⟨rfl, rfl,
            by simp only [List.filter_append, List.length_append]; omega,
            by simp only [List.filter_append, List.length_append]; omega⟩

/-- No reachable `ChatRAGModel` state ever carries the `llm` or
`retrieval_chain` attributes: nothing in the repository assigns them. -/
theorem chatReach_attrs {c : ChatState} (h : ChatReach c) :
    c.llm = none ∧ c.retrieval_chain = none := by
  induction h with
  | init => exact ⟨rfl, rfl⟩
  | proc env path c0 hc ih =>
    unfold chat_process_document
    split
    · exact ih
    · split
      · exact ih
      · next valid ev2 heq2 =>
        simp only []
        have hcc : create_enhanced_chat_chain
            { c0 with rag := { c0.rag with vector_store := some valid } } =
            .error ("'ChatRAGModel' object has no attribute 'llm'") := by
          unfold create_enhanced_chat_chain attrRead
          simp [ih.1]
        rw [hcc]
        exact ih
  | askq env q sid c0 hc ih => exact ih

/-- Lemma: `ask_question_with_memory` raises on every reachable state: the
`retrieval_chain` attribute read in its guard is never present. -/
theorem chat_never_answers {c : ChatState} (h : ChatReach c) (q sid : String) :
    ask_question_with_memory c q sid =
      .error ("'ChatRAGModel' object has no attribute 'retrieval_chain'") := by
  unfold ask_question_with_memory attrRead
  rw [(chatReach_attrs h).2]
  rfl

/-- Lemma: `ask_question` either leaves the state alone or appends exactly one
user/assistant pair to the questioner's session. -/
theorem ask_question_state_cases (env : Env) (st : RAGState) (q sid : String) :
    (ask_question env st q sid).state = st ∨
    ∃ a, (ask_question env st q sid).state =
      { st with chat_histories :=
          (appendHistory st.chat_histories sid
            [⟨"user", q⟩, ⟨"assistant", a⟩]) } := by
  cases hv : st.vector_store with
  | none => left; unfold ask_question; rw [hv]
  | some store =>
    cases hsc : statsShortcut st q with
    | false =>
      rw [ask_question_not_stats env st q sid store hv hsc]
      split
      · left; rfl
      · split
        · left; rfl
        · split
          · left; rfl
          · next c heq =>
            right
            refine ⟨stripAnswerLabel (pyStrip c.message.content), ?_⟩
            simp only [hv]
    | true =>
      obtain ⟨hk, hd⟩ := Bool.and_eq_true_iff.mp hsc
      obtain ⟨s, hs⟩ := Option.isSome_iff_exists.mp hd
      rw [ask_question_stats env st q sid store s hv hk hs]
      right
      refine ⟨statsAnswerText s, ?_⟩
      simp only [hv]

/-- What `get_session_history` returns. -/
theorem get_session_history_fst (st : RAGState) (s : String) :
    (get_session_history st s).1 = (dictGet st.chat_histories s).getD [] := by
  unfold get_session_history
  cases dictGet st.chat_histories s <;> simp

/-- A complete exchange appended to a well-formed history keeps it
well-formed. -/
theorem alternatingUA_append_pair (l : List Msg) (q a : String)
    (h : alternatingUA l = true) :
    alternatingUA (l ++ [⟨"user", q⟩, ⟨"assistant", a⟩]) = true := by
  induction l using alternatingUA.induct with
  | case1 => simp [alternatingUA]
  | case2 m => simp [alternatingUA] at h
  | case3 u a2 rest ih =>
    simp only [alternatingUA, Bool.and_eq_true] at h
    simp only [List.cons_append, alternatingUA, Bool.and_eq_true]
    exact ⟨h.1, ih h.2⟩

/-- The stored value of a well-formed history dict is well-formed. -/
theorem dictGet_histWF {hs : List (String × List Msg)} {s : String}
    {l : List Msg} (h : histWF hs) (hd : dictGet hs s = some l) :
    alternatingUA l = true := by
  unfold dictGet at hd
  cases hf : hs.find? (fun p => p.1 = s) with
  | none => rw [hf] at hd; cases hd
  | some pr =>
    rw [hf] at hd
    simp at hd
    have := h pr (List.mem_of_find?_eq_some hf)
    rw [hd] at this
    exact this

/-- Appending one complete exchange preserves `histWF`. -/
theorem histWF_appendHistory (hs : List (String × List Msg))
    (sid q a : String) (h : histWF hs) :
    histWF (appendHistory hs sid [⟨"user", q⟩, ⟨"assistant", a⟩]) := by
  intro p hp
  rcases mem_dictSet hp with hin | heq
  · exact h p hin
  · rw [heq]
    cases hd : dictGet hs sid with
    | none => simp [hd, alternatingUA]
    | some l =>
      simp only [hd, Option.getD_some]
      exact alternatingUA_append_pair l q a (dictGet_histWF h hd)

/-- The dict component of one aspect's inner loop. -/
theorem compareAspect_fst (env : Env) (st : RAGState) (doc_ids : List String)
    (a : String) :
    (compareAspect env st doc_ids a).1 =
      doc_ids.foldl (fun m d => dictSet m d (compareOneDoc env st a d).1) [] := by
  unfold compareAspect
  exact foldl_fst_indep doc_ids
    (fun m d => dictSet m d (compareOneDoc env st a d).1)
    (fun d => (compareOneDoc env st a d).2) [] []

/-- The dict component of `compare_documents`. -/
theorem compare_documents_fst (env : Env) (st : RAGState)
    (doc_ids aspects : List String) :
    (compare_documents env st doc_ids aspects).1 =
      (if aspects = [] then defaultAspects else aspects).foldl
        (fun m a => dictSet m a (compareAspect env st doc_ids a).1) [] := by
  unfold compare_documents
  exact foldl_fst_indep _
    (fun m a => dictSet m a (compareAspect env st doc_ids a).1)
    (fun a => (compareAspect env st doc_ids a).2) [] []

/-- One comparison-processing iteration never touches the chat
histories. -/
theorem processOne_chat_frame (env : Env) (acc : MultiOut) (path : String) :
    (processOneDocument env acc path).state.chat_histories =
      acc.state.chat_histories := by
  unfold processOneDocument
  split
  · rfl
  · simp only []
    split
    · rfl
    · split
      · rfl
      · split <;> rfl

/-- Lemma: `process_multiple_documents` never touches the chat histories. -/
theorem multi_chat_frame (env : Env) (paths : List String) :
    ∀ acc : MultiOut,
      (paths.foldl (processOneDocument env) acc).state.chat_histories =
        acc.state.chat_histories := by
  induction paths with
  | nil => intro acc; rfl
  | cons p rest ih =>
    intro acc
    rw [List.foldl_cons, ih (processOneDocument env acc p),
      processOne_chat_frame]

/-- Every state the model can reach keeps all session histories as
complete alternating user/assistant exchanges. -/
theorem ragReach_histWF {st : RAGState} (h : RAGReach st) :
    histWF st.chat_histories := by
  induction h with
  | init => intro p hp; cases hp
  | proc env path st0 h0 ih =>
    rw [(process_document_frame env st0 path).2.1]; exact ih
  | multi env paths st0 h0 ih =>
    unfold process_multiple_documents
    rw [multi_chat_frame env paths ⟨[], st0, []⟩]; exact ih
  | ask env q sid st0 h0 ih =>
    rcases ask_question_state_cases env st0 q sid with he | ⟨a, he⟩
    · rw [he]; exact ih
    · rw [he]; exact histWF_appendHistory st0.chat_histories sid q a ih
  | hist sid st0 h0 ih =>
    unfold get_session_history
    cases hd : dictGet st0.chat_histories sid with
    | some l => exact ih
    | none =>
      intro p hp
      rcases List.mem_append.mp hp with hin | hone
      · exact ih p hin
      · simp at hone; rw [hone]; rfl
  | clear sid st0 h0 ih =>
    unfold clear_chat_history
    split
    · intro p hp
      rcases mem_dictSet hp with hin | heq
      · exact ih p hin
      · rw [heq]; rfl
    · exact ih
  | clearCmp st0 h0 ih => exact ih

/-! ### The claims -/

/-- Claim C1, counterexample: with the vector store initialized and
document statistics stored, `ask_question` answers a word-count
question from the statistics shortcut — the trace is empty, so neither
the retrieval step nor the LLM call was performed, yet the question was
answered (with the statistics source marker). -/
theorem claim1_counterexample :
    st1.vector_store ≠ none ∧
    (ask_question envOk st1 "How many words does it have?" "default").trace = [] ∧
    (ask_question envOk st1 "How many words does it have?" "default").result.sources =
      ["Calculated from document"] :=
  ⟨by decide, by decide, by decide⟩

/-- Claim C1, amended: with the vector store initialized, a question
that does not hit the statistics shortcut is answered by one retrieval
followed (when the retrieval succeeds) by one LLM call, in that order;
a question that hits the shortcut (a statistics keyword while
`document_stats` is non-empty) is answered directly from the stored
statistics with no retrieval and no LLM call. -/
theorem claim1_retrieval_then_llm (env : Env) (st : RAGState) (q sid : String)
    (store : List Doc) (h : st.vector_store = some store) :
    (statsShortcut st q = true → (ask_question env st q sid).trace = []) ∧
    (statsShortcut st q = false →
      (ask_question env st q sid).trace =
        match env.similaritySearch store q 6 with
        | .error _ => [.search q 6]
        | .ok docs => [.search q 6, .llmCall (askMessages q docs)]) := by
  constructor
  · intro hsc
    obtain ⟨hk, hd⟩ := Bool.and_eq_true_iff.mp hsc
    obtain ⟨s, hs⟩ := Option.isSome_iff_exists.mp hd
    rw [ask_question_stats env st q sid store s h hk hs]
  · intro hsc
    rw [ask_question_not_stats env st q sid store h hsc]
    split
    · rfl
    · split
      · rfl
      · split <;> rfl

/-- Witness for the amended C1 at a concrete processed state and
question. -/
theorem claim1_witness :
    (statsShortcut st1 "What is covered?" = true →
       (ask_question envOk st1 "What is covered?" "default").trace = []) ∧
    (statsShortcut st1 "What is covered?" = false →
       (ask_question envOk st1 "What is covered?" "default").trace =
         match envOk.similaritySearch [⟨"alpha beta"⟩, ⟨" gamma"⟩] "What is covered?" 6 with
         | .error _ => [.search "What is covered?" 6]
         | .ok docs =>
           [.search "What is covered?" 6, .llmCall (askMessages "What is covered?" docs)]) :=
  claim1_retrieval_then_llm envOk st1 "What is covered?" "default"
    [⟨"alpha beta"⟩, ⟨" gamma"⟩] (by decide)

/-- Claim C2: per question `ask_question` performs at most one
similarity search; when the retrieval path runs, the trace is exactly
one top-k lookup (`k = 6`, the question itself as query) followed by
one LLM call whose user prompt embeds every returned chunk verbatim,
joined in the returned order — no second lookup, re-ranking,
deduplication or filtering; and `ask_question_with_memory` (the only
other question path in the sources) answers no question at all on any
reachable state: it raises reading the absent `retrieval_chain`. -/
theorem claim2_single_lookup_as_is :
    (∀ env st q sid,
       ((ask_question env st q sid).trace.filter isSearchEv).length ≤ 1) ∧
    (∀ env st q sid store relevant_docs,
       st.vector_store = some store →
       statsShortcut st q = false →
       env.similaritySearch store q 6 = .ok relevant_docs →
       (ask_question env st q sid).trace =
         [.search q 6,
          .llmCall [⟨"system", askSystemPrompt⟩,
                    ⟨"user", "Context:\n" ++
                       joinSep "\n\n" (relevant_docs.map (·.page_content)) ++
                       "\n\nQuestion: " ++ q ++ "\n\nAnswer:"⟩]]) ∧
    (∀ cst q sid, ChatReach cst →
       ask_question_with_memory cst q sid =
         .error ("'ChatRAGModel' object has no attribute 'retrieval_chain'")) := by
  refine ⟨fun env st q sid => ask_searches_le_one env st q sid, ?_, ?_⟩
  · intro env st q sid store docs h h2 hs
    rw [ask_question_not_stats env st q sid store h h2, hs]
    simp only []
    split <;> first
      | rfl
      | (split <;> rfl)
  · intro cst q sid h
    exact chat_never_answers h q sid

/-- Claim C3: every internal failure of `ask_question`,
`process_document`, `compare_documents` or `get_recommendation` is
converted into a string embedded in the returned value (the state of a
failed `ask_question` is untouched, while a failed vector-store build
in `process_document` still leaves the already-written stats behind —
no rollback); and there is no retry: at most one retrieval and one LLM
call per question, at most one load and one index build per processed
document. -/
theorem claim3_exception_to_string :
    (∀ env st q sid store e, st.vector_store = some store →
       statsShortcut st q = false →
       env.similaritySearch store q 6 = .error e →
       (ask_question env st q sid).result.answer = "Error: " ++ e ∧
       (ask_question env st q sid).state = st) ∧
    (∀ env st q sid store docs e, st.vector_store = some store →
       statsShortcut st q = false →
       env.similaritySearch store q 6 = .ok docs →
       env.chatCompletion (askMessages q docs) = .error e →
       (ask_question env st q sid).result.answer = "Error: " ++ e ∧
       (ask_question env st q sid).state = st) ∧
    (∀ env st path e ev, load_pdf env path = (.error e, ev) →
       (process_document env st path).1 = "❌ Error: " ++ e ∧
       (process_document env st path).2.1 = st) ∧
    (∀ env st aspect d doc_info e, dictGet st.documents d = some doc_info →
       env.similaritySearch doc_info.vector_store
         ("information about " ++ aspect) 3 = .error e →
       (compareOneDoc env st aspect d).1 = "Error: " ++ e) ∧
    (∀ env st doc_ids job_role e,
       env.chatCompletion (recMessages st doc_ids job_role
         (compare_documents env st doc_ids []).1) = .error e →
       (get_recommendation env st doc_ids job_role).1 =
         "Error generating recommendation: " ++ e) ∧
    (∀ env st q sid,
       ((ask_question env st q sid).trace.filter isSearchEv).length ≤ 1 ∧
       ((ask_question env st q sid).trace.filter isLlmEv).length ≤ 1) ∧
    (∀ env st path,
       ((process_document env st path).2.2.filter isLoadEv).length ≤ 1 ∧
       ((process_document env st path).2.2.filter isStoreEv).length ≤ 1) := by
  refine ⟨?_, ?_, ?_, ?_, ?_, ?_, ?_⟩
  · intro env st q sid store e h h2 hs
    rw [ask_question_not_stats env st q sid store h h2, hs]
    exact ⟨rfl, rfl⟩
  · intro env st q sid store docs e h h2 hs hc
    rw [ask_question_not_stats env st q sid store h h2, hs]
    simp only []
    rw [hc]
    exact ⟨rfl, rfl⟩
  · intro env st path e ev hl
    unfold process_document
    rw [hl]
    exact ⟨rfl, rfl⟩
  · intro env st aspect d doc_info e hd hs
    unfold compareOneDoc
    rw [hd]
    simp only []
    rw [hs]
  · intro env st doc_ids job_role e hc
    unfold get_recommendation
    simp only []
    rw [hc]
  · intro env st q sid
    exact ⟨ask_searches_le_one env st q sid, ask_llm_le_one env st q sid⟩
  · intro env st path
    exact ⟨(process_document_frame env st path).2.2.1,
           (process_document_frame env st path).2.2.2⟩

/-- Claim C4: the comparison sidebar offers processing only when at
least two files are uploaded, and a click with more than three files
shows the error message and processes nothing: no results, no state
change, no external call. -/
theorem claim4_two_to_three_documents :
    (∀ env st files clicked,
       (comparison_upload_handler env st files clicked).buttonOffered = true →
       2 ≤ files.length) ∧
    (∀ env st files, 3 < files.length →
       comparison_upload_handler env st files true =
         ⟨true, some "Maximum 3 documents allowed", none, st, []⟩) := by
  constructor
  · intro env st files clicked h
    unfold comparison_upload_handler at h
    by_cases hc : files ≠ [] ∧ files.length ≥ 2
    · exact hc.2
    · rw [if_neg hc] at h
      simp at h
  · intro env st files h
    have hne : files ≠ [] := by
      intro he; subst he; simp at h
    unfold comparison_upload_handler
    rw [if_pos ⟨hne, by omega⟩]
    simp [h]

/-- Claim C5: when each stage succeeds, `process_document` runs the
pipeline load → split → index exactly once, in that order, and the
vector store is built from exactly the chunks that survive the
whitespace filter; the document map and chat histories are untouched. -/
theorem claim5_pipeline (env : Env) (st : RAGState) (path : String)
    (pages survivors : List Doc)
    (hfe : env.fileExists path = true)
    (hlp : env.loadPages path = .ok pages)
    (hpne : pages ≠ [])
    (htext : nonBlank (joinSep "" (pages.map (·.page_content))) = true)
    (hsv : (env.splitDocuments pages).filter (fun c => nonBlank c.page_content) =
      survivors)
    (hsne : survivors ≠ [])
    (hfd : env.fromDocuments survivors = .ok ()) :
    (process_document env st path).2.1.vector_store = some survivors ∧
    (process_document env st path).2.2 =
      [.loadPdf path, .split pages, .createStore survivors] ∧
    (process_document env st path).2.1.document_stats =
      some (statsOf path survivors) ∧
    (process_document env st path).2.1.documents = st.documents ∧
    (process_document env st path).2.1.chat_histories = st.chat_histories := by
  have hfilter : survivors.filter (fun c => nonBlank c.page_content) = survivors := by
    rw [← hsv, List.filter_filter]
    simp
  have hload : load_pdf env path = (.ok survivors, [.loadPdf path, .split pages]) := by
    unfold load_pdf
    rw [hfe]
    simp only [Bool.true_eq_false, if_false]
    rw [hlp]
    simp only []
    rw [if_neg hpne, htext]
    simp only [Bool.true_eq_false, if_false]
    rw [hsv, if_neg hsne]
  have hstore : create_vector_store env survivors =
      (.ok survivors, [.createStore survivors]) := by
    unfold create_vector_store
    rw [if_neg hsne]
    simp only []
    rw [hfilter, if_neg hsne, hfd]
  unfold process_document
  rw [hload]
  simp only []
  rw [if_neg hsne, hfilter, if_neg hsne, hstore]
  exact ⟨rfl, rfl, rfl, rfl, rfl⟩

/-- Witness for C5 at a concrete environment and document. -/
theorem claim5_witness :
    (process_document envOk ragInit "doc.pdf").2.1.vector_store =
      some [⟨"alpha beta"⟩, ⟨" gamma"⟩] ∧
    (process_document envOk ragInit "doc.pdf").2.2 =
      [.loadPdf "doc.pdf", .split [⟨"alpha beta"⟩, ⟨" gamma"⟩],
       .createStore [⟨"alpha beta"⟩, ⟨" gamma"⟩]] ∧
    (process_document envOk ragInit "doc.pdf").2.1.document_stats =
      some (statsOf "doc.pdf" [⟨"alpha beta"⟩, ⟨" gamma"⟩]) ∧
    (process_document envOk ragInit "doc.pdf").2.1.documents = ragInit.documents ∧
    (process_document envOk ragInit "doc.pdf").2.1.chat_histories =
      ragInit.chat_histories :=
  claim5_pipeline envOk ragInit "doc.pdf" [⟨"alpha beta"⟩, ⟨" gamma"⟩]
    [⟨"alpha beta"⟩, ⟨" gamma"⟩] (by decide) (by decide) (by decide) (by decide)
    (by decide) (by decide) (by decide)

/-- Claim C6: one `ask_question` call leaves every other session's
history exactly as `get_session_history` returned it before, and at the
caller's session id it only ever appends — either nothing, or exactly
the user message (the question) followed by one assistant message. -/
theorem claim6_session_isolation (env : Env) (st : RAGState) (q sid t : String)
    (h : t ≠ sid) :
    (get_session_history (ask_question env st q sid).state t).1 =
      (get_session_history st t).1 ∧
    (∃ app, (get_session_history (ask_question env st q sid).state sid).1 =
       (get_session_history st sid).1 ++ app ∧
       (app = [] ∨ ∃ a, app = [⟨"user", q⟩, ⟨"assistant", a⟩])) := by
  rcases ask_question_state_cases env st q sid with he | ⟨a, he⟩
  · rw [he]
    exact ⟨rfl, ⟨[], by simp, Or.inl rfl⟩⟩
  · rw [he]
    constructor
    · rw [get_session_history_fst, get_session_history_fst]
      simp only []
      unfold appendHistory
      rw [dictGet_dictSet_ne _ _ _ _ h]
    · refine ⟨[⟨"user", q⟩, ⟨"assistant", a⟩], ?_,
        Or.inr ⟨a, rfl⟩⟩
      rw [get_session_history_fst, get_session_history_fst]
      simp only []
      unfold appendHistory
      rw [dictGet_dictSet_self]
      simp

/-- Witness for C6 at a concrete state, question and pair of distinct
session ids. -/
theorem claim6_witness :
    (get_session_history (ask_question envOk st1 "what is it" "default").state
       "other").1 = (get_session_history st1 "other").1 ∧
    (∃ app, (get_session_history (ask_question envOk st1 "what is it" "default").state
       "default").1 = (get_session_history st1 "default").1 ++ app ∧
       (app = [] ∨ ∃ a, app = [⟨"user", "what is it"⟩, ⟨"assistant", a⟩])) :=
  claim6_session_isolation envOk st1 "what is it" "default" "other" (by decide)

/-- Claim C7: `compare_documents` with no aspects uses exactly the six
default aspects as keys; under every aspect each requested document id
has exactly one entry (and no other keys appear), an unprocessed id maps
to `"Document not found"`, and the function is total over every
behaviour of the external libraries (it never raises). -/
theorem claim7_compare_defaults (env : Env) (st : RAGState)
    (doc_ids : List String) :
    dictKeys (compare_documents env st doc_ids []).1 = defaultAspects ∧
    (∀ a mp, (a, mp) ∈ (compare_documents env st doc_ids []).1 →
       (∀ d, d ∈ doc_ids →
          (dictKeys mp).count d = 1 ∧
          dictGet mp d = some (compareOneDoc env st a d).1) ∧
       (∀ k, k ∈ dictKeys mp → k ∈ doc_ids)) ∧
    (∀ a mp d, (a, mp) ∈ (compare_documents env st doc_ids []).1 →
       d ∈ doc_ids → dictGet st.documents d = none →
       dictGet mp d = some "Document not found") := by
  have hf := compare_documents_fst env st doc_ids []
  rw [if_pos rfl] at hf
  have hmp : ∀ a mp, (a, mp) ∈ (compare_documents env st doc_ids []).1 →
      mp = (compareAspect env st doc_ids a).1 ∧ a ∈ defaultAspects := by
    intro a mp hmem
    rw [hf] at hmem
    rcases mem_foldl_dictSet (fun a => (compareAspect env st doc_ids a).1)
      defaultAspects [] (a, mp) hmem with h0 | h0
    · cases h0
    · exact ⟨h0.1, h0.2⟩
  refine ⟨?_, ?_, ?_⟩
  · rw [hf, dictKeys_foldl_nodup _ defaultAspects (by decide) []
      (by intro a ha h0; cases h0)]
    rfl
  · intro a mp hmem
    obtain ⟨hmp1, _⟩ := hmp a mp hmem
    subst hmp1
    rw [compareAspect_fst]
    constructor
    · intro d hd
      constructor
      · rw [count_dictKeys_foldl]
        simp [hd, dictKeys]
      · exact dictGet_foldl_set_mem _ doc_ids d hd []
    · intro k hk
      rcases mem_dictKeys_foldl _ doc_ids k [] hk with h0 | h0
      · exact h0
      · cases h0
  · intro a mp d hmem hd hnone
    obtain ⟨hmp1, _⟩ := hmp a mp hmem
    subst hmp1
    rw [compareAspect_fst, dictGet_foldl_set_mem _ doc_ids d hd []]
    unfold compareOneDoc
    rw [hnone]

/-- Claim C8: `extract_structured_data` is total (over every behaviour
of the external libraries) and always returns a dictionary carrying an
`"error"` key: `{"error": "Document not found"}` for an unknown id, and
for every known id an `"Extraction failed: …"` entry, because the reply
is read through `response.choices.message` — an attribute access on a
Python list — which raises before the JSON parsing can run and is
caught by the generic handler. -/
theorem claim8_extract_always_error (env : Env) (st : RAGState)
    (doc_id : String) :
    (dictGet (extract_structured_data env st doc_id).1 "error").isSome ∧
    (dictGet st.documents doc_id = none →
       (extract_structured_data env st doc_id).1 =
         [("error", "Document not found")]) ∧
    (∀ doc_info, dictGet st.documents doc_id = some doc_info →
       ∃ e, (extract_structured_data env st doc_id).1 =
         [("error", "Extraction failed: " ++ e)]) := by
  unfold extract_structured_data
  split
  · next hd =>
    refine ⟨rfl, fun _ => rfl, fun i hi => ?_⟩
    rw [hd] at hi
    cases hi
  · next doc_info hd =>
    simp only []
    split
    · next e hc =>
      refine ⟨rfl, fun hn => ?_, fun i hi => ⟨e, rfl⟩⟩
      rw [hn] at hd
      cases hd
    · next resp hc =>
      refine ⟨rfl, fun hn => ?_, fun i hi =>
        ⟨"'list' object has no attribute 'message'", rfl⟩⟩
      rw [hn] at hd
      cases hd

/-- Claim C9: the history update of `ask_question` is atomic with
respect to failure — when the retrieval raises, the LLM call raises, or
the response carries no choices, the whole state (hence every session's
history) is unchanged — and every reachable state's session histories
are alternating user/assistant exchanges of even length. -/
theorem claim9_history_atomic :
    (∀ env st q sid store, st.vector_store = some store →
       statsShortcut st q = false →
       ((∃ e, env.similaritySearch store q 6 = .error e) ∨
        (∃ docs e, env.similaritySearch store q 6 = .ok docs ∧
           env.chatCompletion (askMessages q docs) = .error e) ∨
        (∃ docs resp, env.similaritySearch store q 6 = .ok docs ∧
           env.chatCompletion (askMessages q docs) = .ok resp ∧
           resp.choices = [])) →
       (ask_question env st q sid).state = st) ∧
    (∀ st, RAGReach st → histWF st.chat_histories) := by
  constructor
  · intro env st q sid store h h2 hfail
    rw [ask_question_not_stats env st q sid store h h2]
    rcases hfail with ⟨e, hs⟩ | ⟨docs, e, hs, hc⟩ | ⟨docs, resp, hs, hc, hch⟩
    · rw [hs]
    · rw [hs]
      simp only []
      rw [hc]
    · rw [hs]
      simp only []
      rw [hc]
      simp only []
      rw [hch]
      rfl
  · intro st h
    exact ragReach_histWF h

/-- Claim C10, counterexample: the doc id is computed with
`str.replace('.pdf', '')`, which removes every occurrence of `".pdf"`,
not only a suffix: processing the file `a.pdfb.pdf` stores its results
under the key `"ab"`, and no entry exists under `"a.pdfb"`, the key the
claimed suffix-removal mapping predicts. -/
theorem claim10_counterexample :
    dictGet (process_multiple_documents envOk ragInit ["a.pdfb.pdf"]).results
      "a.pdfb" = none ∧
    dictGet (process_multiple_documents envOk ragInit ["a.pdfb.pdf"]).results
      "ab" = some (.success "a.pdfb.pdf" ⟨3, 17, 2⟩) ∧
    dictGet (process_multiple_documents envOk ragInit
      ["a.pdfb.pdf"]).state.documents "a.pdfb" = none :=
  ⟨by decide, by decide, by decide⟩

/-- One successful comparison-processing iteration, evaluated. -/
theorem processOne_ok (env : Env) (acc : MultiOut) (p : String) (k : List Doc)
    (h : (load_pdf env p).1 = .ok k) (hv : env.fromDocuments k = .ok ()) :
    (processOneDocument env acc p).results =
      dictSet acc.results (docIdOf p) (.success (basename p) (multiStatsOf k)) ∧
    (processOneDocument env acc p).state.documents =
      dictSet acc.state.documents (docIdOf p) (entryOf p k) := by
  obtain ⟨hne, hfil⟩ := load_pdf_ok_props env p k h
  have hcs : create_vector_store env k = (.ok k, [.createStore k]) := by
    unfold create_vector_store
    rw [if_neg hne]
    simp only []
    rw [hfil, if_neg hne, hv]
  rcases hlp : load_pdf env p with ⟨r, ev⟩
  rw [hlp] at h
  simp only [] at h
  subst h
  unfold processOneDocument
  rw [hlp]
  simp only []
  rw [if_neg hne, hfil, if_neg hne, hcs]
  exact ⟨rfl, rfl⟩

/-- Claim C10, amended: the doc id removes every occurrence of `".pdf"`
and replaces spaces by underscores; when two files of the input list
collide on that id and both process successfully, the returned results
hold exactly one entry for the id — the later file's — and the stored
documents map holds the later file's entry under it (one entry when the
map held none before). -/
theorem claim10_same_key_overwrites (env : Env) (st : RAGState)
    (p1 p2 : String) (k1 k2 : List Doc)
    (hid : docIdOf p1 = docIdOf p2)
    (h1 : (load_pdf env p1).1 = .ok k1)
    (h2 : (load_pdf env p2).1 = .ok k2)
    (hv1 : env.fromDocuments k1 = .ok ())
    (hv2 : env.fromDocuments k2 = .ok ()) :
    (dictKeys (process_multiple_documents env st [p1, p2]).results).count
      (docIdOf p2) = 1 ∧
    dictGet (process_multiple_documents env st [p1, p2]).results (docIdOf p2) =
      some (.success (basename p2) (multiStatsOf k2)) ∧
    dictGet (process_multiple_documents env st [p1, p2]).state.documents
      (docIdOf p2) = some (entryOf p2 k2) ∧
    (dictKeys (process_multiple_documents env st [p1, p2]).state.documents).count
      (docIdOf p2) = max ((dictKeys st.documents).count (docIdOf p2)) 1 := by
  have hstep : process_multiple_documents env st [p1, p2] =
      processOneDocument env (processOneDocument env ⟨[], st, []⟩ p1) p2 := rfl
  have s1 := processOne_ok env ⟨[], st, []⟩ p1 k1 h1 hv1
  have s2 := processOne_ok env (processOneDocument env ⟨[], st, []⟩ p1) p2 k2 h2 hv2
  rw [hstep, s2.1, s2.2, s1.1, s1.2]
  simp only [hid]
  refine ⟨?_, dictGet_dictSet_self _ _ _, dictGet_dictSet_self _ _ _, ?_⟩
  · rw [count_dictKeys_dictSet, count_dictKeys_dictSet]
    simp [dictKeys]
  · rw [count_dictKeys_dictSet, count_dictKeys_dictSet]
    omega

/-- Witness for the amended C10: two uploads named `a 1.pdf` and
`a_1.pdf` collide on the id `a_1`; the second overwrites the first. -/
theorem claim10_witness :
    (dictKeys (process_multiple_documents envOk ragInit
      ["a 1.pdf", "a_1.pdf"]).results).count (docIdOf "a_1.pdf") = 1 ∧
    dictGet (process_multiple_documents envOk ragInit
      ["a 1.pdf", "a_1.pdf"]).results (docIdOf "a_1.pdf") =
      some (.success (basename "a_1.pdf")
        (multiStatsOf [⟨"alpha beta"⟩, ⟨" gamma"⟩])) ∧
    dictGet (process_multiple_documents envOk ragInit
      ["a 1.pdf", "a_1.pdf"]).state.documents (docIdOf "a_1.pdf") =
      some (entryOf "a_1.pdf" [⟨"alpha beta"⟩, ⟨" gamma"⟩]) ∧
    (dictKeys (process_multiple_documents envOk ragInit
      ["a 1.pdf", "a_1.pdf"]).state.documents).count (docIdOf "a_1.pdf") =
      max ((dictKeys ragInit.documents).count (docIdOf "a_1.pdf")) 1 :=
  claim10_same_key_overwrites envOk ragInit "a 1.pdf" "a_1.pdf"
    [⟨"alpha beta"⟩, ⟨" gamma"⟩] [⟨"alpha beta"⟩, ⟨" gamma"⟩]
    (by decide) (by decide) (by decide) (by decide) (by decide)

end DocAssistant
